import Mathlib

/-
  Verification development for the Posture Guardian core
  (posture evaluation and alert-debouncing state machine).

  The program state of the `PostureGuardian` class is embedded as the
  structure `PostureGuardian` below; the per-frame tick `process_frame`,
  the alert gate `show_alert`, the calibration operations
  `calibrate_posture` / `finish_calibration` and the configuration
  setters `update_sensitivity` / `update_duration` are embedded as pure
  state-passing functions.  Wall-clock time (`time.time()`) is passed in
  explicitly as a rational `now`.  Posture signatures flowing through the
  state machine carry rational angle fields; the real-valued geometry
  (`calculate_angle`, `check_posture`) is embedded separately over ℝ.
-/

/-- A posture signature: the dict returned by `check_posture`
    (fields `shoulder_slope`, `neck_angle`, `head_forward`). -/
structure Sig where
  shoulder_slope : ℚ
  neck_angle : ℚ
  head_forward : Bool
deriving DecidableEq

/-- The observable per-frame input to `process_frame`:
    either MediaPipe detected no pose landmarks at all
    (`results.pose_landmarks` falsy), or landmarks were present and
    `check_posture` returned `none` or a signature. -/
inductive FrameInput where
  | noDetection : FrameInput
  | detected : Option Sig → FrameInput
deriving DecidableEq

/-- The status texts the core can emit through `update_status`. -/
inductive Status where
  | capturing : Status
  | calibrated : Status
  | goodPosture : Status
  | poorPosture : Status
  | noPerson : Status
deriving DecidableEq

/-- Observable output of one tick: the status update performed (if any)
    and whether an alert overlay was actually fired. -/
structure FrameOut where
  status : Option Status
  alert : Bool
deriving DecidableEq

/-- The mutable state of the `PostureGuardian` object
    (`__init__`, lines 27-33 of the source). -/
structure PostureGuardian where
  good_posture : Option Sig
  bad_posture_counter : ℕ
  sensitivity : ℤ
  alert_duration : ℤ
  last_alert_time : ℚ
  monitoring : Bool
  calibrating : Bool
deriving DecidableEq

/-- The state set up by `__init__`. -/
def initState : PostureGuardian :=
  { good_posture := none
    bad_posture_counter := 0
    sensitivity := 8
    alert_duration := 3
    last_alert_time := 0
    monitoring := false
    calibrating := false }

/-- The bad-posture condition of `process_frame` (lines 218-229):
    `shoulder_diff > sensitivity or neck_diff > sensitivity or
    (posture.head_forward and not good_posture.head_forward)`. -/
def isBad (sig base : Sig) (sens : ℤ) : Bool :=
  decide (|sig.shoulder_slope - base.shoulder_slope| > (sens : ℚ)) ||
  decide (|sig.neck_angle - base.neck_angle| > (sens : ℚ)) ||
  (sig.head_forward && !base.head_forward)

/-- The alert gate `show_alert` (lines 97-103): returns early inside the cooldown
    window, otherwise records the firing time and shows the overlay.
    Returns the new state and whether the alert actually fired. -/
def show_alert (now : ℚ) (st : PostureGuardian) : PostureGuardian × Bool :=
  if now - st.last_alert_time < (st.alert_duration : ℚ) then (st, false)
  else ({st with last_alert_time := now}, true)

/-- One tick of `process_frame` (lines 201-241), restricted to the core
    logic: the branch on `results.pose_landmarks`, the branch on the
    `check_posture` result, the calibration capture, and the
    monitoring/debounce logic. -/
def process_frame (now : ℚ) (inp : FrameInput) (st : PostureGuardian) :
    PostureGuardian × FrameOut :=
  match inp with
  | .noDetection => (st, ⟨some .noPerson, false⟩)
  | .detected none => (st, ⟨none, false⟩)
  | .detected (some sig) =>
    if st.calibrating = true ∧ st.good_posture = none then
      ({st with good_posture := some sig}, ⟨none, false⟩)
    else
      match st.good_posture with
      | some base =>
        if st.monitoring = true then
          if isBad sig base st.sensitivity then
            let st1 := {st with bad_posture_counter := st.bad_posture_counter + 1}
            if st1.bad_posture_counter > 5 then
              match show_alert now st1 with
              | (st2, fired) => (st2, ⟨some .poorPosture, fired⟩)
            else (st1, ⟨none, false⟩)
          else ({st with bad_posture_counter := 0}, ⟨some .goodPosture, false⟩)
        else (st, ⟨none, false⟩)
      | none => (st, ⟨none, false⟩)

/-- The synchronous part of `calibrate_posture` (lines 167-171): set
    `calibrating`, clear `good_posture`, report "capturing". -/
def calibrate_posture (st : PostureGuardian) : PostureGuardian × Status :=
  ({st with calibrating := true, good_posture := none}, .capturing)

/-- The `finish_calibration` closure (lines 173-179), run when the
    3-second window elapses: clear `calibrating`; if a baseline was
    captured, report success and start monitoring; otherwise do nothing
    further (no status is emitted on the empty-baseline path). -/
def finish_calibration (st : PostureGuardian) : PostureGuardian × Option Status :=
  let st1 := {st with calibrating := false}
  match st1.good_posture with
  | some _ => ({st1 with monitoring := true}, some .calibrated)
  | none => (st1, none)

/-- Python `int()` truncation toward zero, applied to a rational. -/
def pyInt (q : ℚ) : ℤ :=
  if q < 0 then -(Int.floor (-q)) else Int.floor q

/-- The setter `update_sensitivity` (lines 396-399): stores `int(value)` with no
    range check. -/
def update_sensitivity (v : ℚ) (st : PostureGuardian) : PostureGuardian :=
  {st with sensitivity := pyInt v}

/-- The setter `update_duration` (lines 401-404): stores `int(value)` with no
    range check. -/
def update_duration (v : ℚ) (st : PostureGuardian) : PostureGuardian :=
  {st with alert_duration := pyInt v}

/-- Run a list of timed frames through `process_frame`, returning the
    final state and the number of alerts that actually fired. -/
def runFrames : List (ℚ × FrameInput) → PostureGuardian → PostureGuardian × ℕ
  | [], st => (st, 0)
  | f :: rest, st =>
    let r := process_frame f.1 f.2 st
    let r2 := runFrames rest r.1
    (r2.1, (if r.2.alert then 1 else 0) + r2.2)

/-- A 2-D landmark point (`.x`, `.y` attributes of a MediaPipe landmark). -/
structure LM where
  x : ℝ
  y : ℝ

/-- Python `math.atan2 y x`: the argument of the point `(x, y)`,
    in the half-open interval `(-pi, pi]`. -/
noncomputable def atan2 (y x : ℝ) : ℝ := Complex.arg ⟨x, y⟩

/-- The function `calculate_angle` (lines 44-51): difference of two `atan2` values,
    scaled to degrees, absolute value taken, values above 180 reflected. -/
noncomputable def calculate_angle (p1 p2 p3 : LM) : ℝ :=
  let radians := atan2 (p3.y - p2.y) (p3.x - p2.x) - atan2 (p1.y - p2.y) (p1.x - p2.x)
  let angle := |radians * 180 / Real.pi|
  if angle > 180 then 360 - angle else angle

/-- The real-valued posture signature returned by `check_posture`. -/
structure RSig where
  shoulder_slope : ℝ
  neck_angle : ℝ
  head_forward : Prop

/-- The exception raised inside the `try` block of `check_posture` when
    a landmark index is out of range. -/
inductive PyErr where
  | indexError : PyErr

/-- Indexing `landmarks[i]`, raising `indexError` when out of range. -/
def getLM (lms : List LM) (i : ℕ) : Except PyErr LM :=
  match lms[i]? with
  | some l => .ok l
  | none => .error .indexError

/-- The body of the `try` block of `check_posture` (lines 55-93): fetch
    the six landmarks (LEFT_SHOULDER = 11, RIGHT_SHOULDER = 12,
    LEFT_EAR = 7, RIGHT_EAR = 8, LEFT_HIP = 23, RIGHT_HIP = 24), form
    the midpoints, and derive the three signature fields; any missing
    landmark raises. -/
noncomputable def check_posture_body (lms : List LM) : Except PyErr RSig :=
  match getLM lms 11, getLM lms 12, getLM lms 7, getLM lms 8,
        getLM lms 23, getLM lms 24 with
  | .ok ls, .ok rs, .ok lear, .ok rear, .ok lhip, .ok rhip =>
    let shoulder_slope := |atan2 (rs.y - ls.y) (rs.x - ls.x) * 180 / Real.pi|
    let avg_ear : LM := ⟨(lear.x + rear.x) / 2, (lear.y + rear.y) / 2⟩
    let avg_shoulder : LM := ⟨(ls.x + rs.x) / 2, (ls.y + rs.y) / 2⟩
    let avg_hip : LM := ⟨(lhip.x + rhip.x) / 2, (lhip.y + rhip.y) / 2⟩
    let neck_angle := calculate_angle avg_hip avg_shoulder avg_ear
    let head_forward := avg_ear.x > avg_shoulder.x + 0.05
    .ok ⟨shoulder_slope, neck_angle, head_forward⟩
  | _, _, _, _, _, _ => .error .indexError

/-- The function `check_posture` (lines 53-95): the `try` body with every exception
    caught and turned into `None`. -/
noncomputable def check_posture (lms : List LM) : Option RSig :=
  match check_posture_body lms with
  | .ok s => some s
  | .error _ => none

/- ## Concrete fixtures -/

/-- A concrete baseline signature. -/
def base0 : Sig := ⟨0, 170, false⟩

/-- A concrete deviating signature (shoulder diff 9 exceeds the default
    sensitivity 8). -/
def badSig0 : Sig := ⟨9, 170, false⟩

/-- A concrete monitoring state: calibrated baseline `base0`, default
    configuration, counter 0, no alert ever fired. -/
def stMon0 : PostureGuardian :=
  { good_posture := some base0
    bad_posture_counter := 0
    sensitivity := 8
    alert_duration := 3
    last_alert_time := 0
    monitoring := true
    calibrating := false }

/-- A concrete monitoring state in cooldown: counter 5, alert last fired
    at time 99. -/
def stCool5 : PostureGuardian :=
  {stMon0 with bad_posture_counter := 5, last_alert_time := 99}

/-- A concrete calibrating state with no baseline captured yet. -/
def stCalib0 : PostureGuardian := {initState with calibrating := true}

/-- A concrete calibrating state whose baseline has been captured. -/
def stCalibB0 : PostureGuardian := {stCalib0 with good_posture := some base0}

/-- The state reached by: calibrate from Idle, capture a baseline,
    window elapses (enter Monitoring), then start a recalibration. -/
def recalibState : PostureGuardian :=
  (calibrate_posture (finish_calibration
    ((process_frame 0 (.detected (some base0)) (calibrate_posture initState).1).1)).1).1

/- ## Step lemmas for `process_frame` -/

/-- A frame with landmarks but no computable signature changes nothing
    and emits nothing. -/
lemma process_frame_noSig (now : ℚ) (st : PostureGuardian) :
    process_frame now (.detected none) st = (st, ⟨none, false⟩) := rfl

/-- A frame with no detected person changes nothing and emits
    "no person detected". -/
lemma process_frame_noDetection (now : ℚ) (st : PostureGuardian) :
    process_frame now .noDetection st = (st, ⟨some .noPerson, false⟩) := rfl

/-- Monitoring step on a bad-classified signature: the counter is
    incremented, and the alert path depends on the threshold and the
    cooldown window. -/
lemma process_frame_bad (now : ℚ) (st : PostureGuardian) (sig base : Sig)
    (hc : st.calibrating = false) (hm : st.monitoring = true)
    (hg : st.good_posture = some base)
    (hb : isBad sig base st.sensitivity = true) :
    process_frame now (.detected (some sig)) st =
      if st.bad_posture_counter + 1 > 5 then
        if now - st.last_alert_time < (st.alert_duration : ℚ) then
          ({st with bad_posture_counter := st.bad_posture_counter + 1},
            ⟨some .poorPosture, false⟩)
        else
          ({st with bad_posture_counter := st.bad_posture_counter + 1, last_alert_time := now},
            ⟨some .poorPosture, true⟩)
      else
        ({st with bad_posture_counter := st.bad_posture_counter + 1},
          ⟨none, false⟩) := by
  simp only [process_frame, show_alert, hc, hm, hg, hb]
  simp
  split_ifs <;> rfl

/-- Monitoring step on a good-classified signature: the counter is
    reset to 0 and the "good posture" status is emitted. -/
lemma process_frame_good (now : ℚ) (st : PostureGuardian) (sig base : Sig)
    (hc : st.calibrating = false) (hm : st.monitoring = true)
    (hg : st.good_posture = some base)
    (hb : isBad sig base st.sensitivity = false) :
    process_frame now (.detected (some sig)) st =
      ({st with bad_posture_counter := 0}, ⟨some .goodPosture, false⟩) := by
  simp only [process_frame, show_alert, hc, hm, hg, hb]
  simp

/-- Calibration capture step: while `calibrating` with no baseline, the
    first valid signature is stored as the baseline. -/
lemma process_frame_calib (now : ℚ) (st : PostureGuardian) (sig : Sig)
    (hc : st.calibrating = true) (hg : st.good_posture = none) :
    process_frame now (.detected (some sig)) st =
      ({st with good_posture := some sig}, ⟨none, false⟩) := by
  simp only [process_frame, hc, hg]
  simp

/-- The tick `process_frame` never changes the two mode flags, the configuration
    values, or (outside the calibration-capture branch) the baseline. -/
lemma process_frame_fields (now : ℚ) (inp : FrameInput) (st : PostureGuardian) :
    (process_frame now inp st).1.calibrating = st.calibrating ∧
    (process_frame now inp st).1.monitoring = st.monitoring ∧
    (process_frame now inp st).1.sensitivity = st.sensitivity ∧
    (process_frame now inp st).1.alert_duration = st.alert_duration := by
  refine ⟨?_, ?_, ?_, ?_⟩ <;>
  · rcases inp with _ | p
    · rfl
    rcases p with _ | sig
    · rfl
    simp only [process_frame, show_alert]
    repeat' split
    all_goals rfl

/-- Outside the calibration-capture branch, `process_frame` leaves the
    baseline untouched. -/
lemma process_frame_baseline_stable (now : ℚ) (inp : FrameInput)
    (st : PostureGuardian)
    (h : ¬(st.calibrating = true ∧ st.good_posture = none)) :
    (process_frame now inp st).1.good_posture = st.good_posture := by
  rcases inp with _ | p
  · rfl
  rcases p with _ | sig
  · rfl
  simp only [process_frame, show_alert]
  split
  · exact absurd ‹_› h
  repeat' split
  all_goals rfl

/-- Alert counting distributes over concatenation of frame lists. -/
lemma runFrames_append (xs ys : List (ℚ × FrameInput)) (st : PostureGuardian) :
    runFrames (xs ++ ys) st =
      ((runFrames ys (runFrames xs st).1).1,
        (runFrames xs st).2 + (runFrames ys (runFrames xs st).1).2) := by
  induction xs generalizing st with
  | nil => simp [runFrames]
  | cons f rest ih =>
    simp only [List.cons_append, runFrames, ih]
    simp [Prod.ext_iff, ih, Nat.add_assoc]

/-- Running `k` consecutive bad-classified frames while the counter
    stays at or below the threshold of 5: the counter accumulates and
    no alert fires. -/
lemma run_bad_le5 (now : ℚ) (sig base : Sig) (k : ℕ) :
    ∀ (st : PostureGuardian), st.calibrating = false → st.monitoring = true →
      st.good_posture = some base → isBad sig base st.sensitivity = true →
      st.bad_posture_counter + k ≤ 5 →
      runFrames (List.replicate k (now, FrameInput.detected (some sig))) st =
        ({st with bad_posture_counter := st.bad_posture_counter + k}, 0) := by
  induction k with
  | zero =>
    intro st hc hm hg hb hk
    simp [runFrames]
  | succ k ih =>
    intro st hc hm hg hb hk
    rw [List.replicate_succ]
    simp only [runFrames]
    rw [process_frame_bad now st sig base hc hm hg hb]
    rw [if_neg (by omega : ¬ st.bad_posture_counter + 1 > 5)]
    rw [ih {st with bad_posture_counter := st.bad_posture_counter + 1}
          (by simpa using hc) (by simpa using hm) (by simpa using hg)
          (by simpa using hb) (by simp; omega)]
    have hcc : st.bad_posture_counter + 1 + k = st.bad_posture_counter + (k + 1) := by
      omega
    simp [hcc]

/-- Running 6 consecutive bad-classified frames from a zero counter
    with no active cooldown fires exactly one alert (on the 6th frame)
    and stamps the firing time. -/
lemma run_bad_six (now : ℚ) (sig base : Sig) (st : PostureGuardian)
    (hc : st.calibrating = false) (hm : st.monitoring = true)
    (hg : st.good_posture = some base)
    (hb : isBad sig base st.sensitivity = true)
    (hcnt : st.bad_posture_counter = 0)
    (hcool : ¬ now - st.last_alert_time < (st.alert_duration : ℚ)) :
    runFrames (List.replicate 6 (now, FrameInput.detected (some sig))) st =
      ({st with bad_posture_counter := 6, last_alert_time := now}, 1) := by
  rw [show (6 : ℕ) = 5 + 1 from rfl, List.replicate_succ']
  rw [runFrames_append]
  rw [run_bad_le5 now sig base 5 st hc hm hg hb (by omega)]
  simp only [runFrames]
  rw [process_frame_bad now {st with bad_posture_counter := st.bad_posture_counter + 5}
        sig base (by simpa using hc) (by simpa using hm) (by simpa using hg)
        (by simpa using hb)]
  rw [if_pos (by simp)]
  rw [if_neg (by simpa using hcool)]
  simp [hcnt]

/-- Under continuous bad-classified frames whose timestamps all fall
    strictly inside the cooldown window, no alert fires and the stored
    firing time never changes. -/
lemma run_bad_cooldown (sig base : Sig) :
    ∀ (ts : List ℚ) (st : PostureGuardian),
      st.calibrating = false → st.monitoring = true →
      st.good_posture = some base → isBad sig base st.sensitivity = true →
      (∀ t ∈ ts, t - st.last_alert_time < (st.alert_duration : ℚ)) →
      (runFrames (ts.map fun t => (t, FrameInput.detected (some sig))) st).2 = 0 ∧
      (runFrames (ts.map fun t => (t, FrameInput.detected (some sig))) st).1.last_alert_time
        = st.last_alert_time := by
  intro ts
  induction ts with
  | nil =>
    intro st hc hm hg hb hts
    simp [runFrames]
  | cons t rest ih =>
    intro st hc hm hg hb hts
    simp only [List.map_cons, runFrames]
    rw [process_frame_bad t st sig base hc hm hg hb]
    by_cases h5 : st.bad_posture_counter + 1 > 5
    · rw [if_pos h5, if_pos (hts t (by simp))]
      have := ih {st with bad_posture_counter := st.bad_posture_counter + 1}
        (by simpa using hc) (by simpa using hm) (by simpa using hg)
        (by simpa using hb)
        (by intro u hu; simpa using hts u (by simp [hu]))
      simpa using this
    · rw [if_neg h5]
      have := ih {st with bad_posture_counter := st.bad_posture_counter + 1}
        (by simpa using hc) (by simpa using hm) (by simpa using hg)
        (by simpa using hb)
        (by intro u hu; simpa using hts u (by simp [hu]))
      simpa using this

/- ## Geometry lemmas -/

/-- The function `atan2` never exceeds pi. -/
lemma atan2_le_pi (y x : ℝ) : atan2 y x ≤ Real.pi := Complex.arg_le_pi _

/-- The function `atan2` is strictly greater than negative pi. -/
lemma neg_pi_lt_atan2 (y x : ℝ) : -Real.pi < atan2 y x := Complex.neg_pi_lt_arg _

/-- When all six required landmarks are present, `check_posture`
    produces a signature. -/
lemma check_posture_isSome (lms : List LM) (h : 24 < lms.length) :
    ∃ s, check_posture lms = some s := by
  have e7 := List.getElem?_eq_getElem (show 7 < lms.length by omega)
  have e8 := List.getElem?_eq_getElem (show 8 < lms.length by omega)
  have e11 := List.getElem?_eq_getElem (show 11 < lms.length by omega)
  have e12 := List.getElem?_eq_getElem (show 12 < lms.length by omega)
  have e23 := List.getElem?_eq_getElem (show 23 < lms.length by omega)
  have e24 := List.getElem?_eq_getElem (show 24 < lms.length by omega)
  simp [check_posture, check_posture_body, getLM, e7, e8, e11, e12, e23, e24]

/-- When the landmark list is too short, `check_posture` returns `none`
    (the raised index error is caught). -/
lemma check_posture_isNone (lms : List LM) (h : lms.length ≤ 24) :
    check_posture lms = none := by
  have e24 : lms[24]? = none := List.getElem?_eq_none (by omega)
  rcases h11 : lms[11]? with _ | l11 <;>
  rcases h12 : lms[12]? with _ | l12 <;>
  rcases h7 : lms[7]? with _ | l7 <;>
  rcases h8 : lms[8]? with _ | l8 <;>
  rcases h23 : lms[23]? with _ | l23 <;>
  simp [check_posture, check_posture_body, getLM, h11, h12, h7, h8, h23, e24]

/- ## Claim theorems -/

/-- C8: for every triple of 2-D points, `calculate_angle` returns a
    value in the closed interval [0, 180], and swapping the first and
    third points leaves the value unchanged:
    `calculate_angle p1 p2 p3 = calculate_angle p3 p2 p1`. -/
theorem c8_calculate_angle_range_and_symmetry (p1 p2 p3 : LM) :
    (0 ≤ calculate_angle p1 p2 p3 ∧ calculate_angle p1 p2 p3 ≤ 180) ∧
    calculate_angle p1 p2 p3 = calculate_angle p3 p2 p1 := by
  have hpi : (0 : ℝ) < Real.pi := Real.pi_pos
  have key : ∀ q1 q3 : LM,
      |(atan2 (q1.y - p2.y) (q1.x - p2.x) - atan2 (q3.y - p2.y) (q3.x - p2.x)) *
        180 / Real.pi| < 360 := by
    intro q1 q3
    have h1 := atan2_le_pi (q1.y - p2.y) (q1.x - p2.x)
    have h2 := neg_pi_lt_atan2 (q1.y - p2.y) (q1.x - p2.x)
    have h3 := atan2_le_pi (q3.y - p2.y) (q3.x - p2.x)
    have h4 := neg_pi_lt_atan2 (q3.y - p2.y) (q3.x - p2.x)
    have habs : |atan2 (q1.y - p2.y) (q1.x - p2.x) -
        atan2 (q3.y - p2.y) (q3.x - p2.x)| < 2 * Real.pi := by
      rw [abs_lt]
      constructor <;> linarith
    have e : |(atan2 (q1.y - p2.y) (q1.x - p2.x) -
        atan2 (q3.y - p2.y) (q3.x - p2.x)) * 180 / Real.pi| =
        |atan2 (q1.y - p2.y) (q1.x - p2.x) -
          atan2 (q3.y - p2.y) (q3.x - p2.x)| * 180 / Real.pi := by
      rw [abs_div, abs_of_pos hpi, abs_mul]
      norm_num
    rw [e, div_lt_iff₀ hpi]
    linarith
  constructor
  · simp only [calculate_angle]
    split_ifs with h
    · have := key p3 p1
      constructor <;> linarith
    · push_neg at h
      exact ⟨abs_nonneg _, h⟩
  · simp only [calculate_angle]
    have e : atan2 (p1.y - p2.y) (p1.x - p2.x) - atan2 (p3.y - p2.y) (p3.x - p2.x) =
        -(atan2 (p3.y - p2.y) (p3.x - p2.x) - atan2 (p1.y - p2.y) (p1.x - p2.x)) := by
      ring
    rw [e, neg_mul, neg_div, abs_neg]

/-- C10: `check_posture` is a total function on landmark lists: it
    returns a signature record exactly when all six required landmark
    indices (the largest being RIGHT_HIP = 24) are in range, and
    returns `none` otherwise — the index error raised inside the body
    is always caught, so no exception reaches the caller. -/
theorem c10_check_posture_total (lms : List LM) :
    ((∃ s, check_posture lms = some s) ↔ 24 < lms.length) ∧
    (check_posture lms = none ↔ lms.length ≤ 24) := by
  constructor
  · constructor
    · rintro ⟨s, hs⟩
      by_contra hlen
      rw [check_posture_isNone lms (by omega)] at hs
      exact Option.noConfusion hs
    · exact check_posture_isSome lms
  · constructor
    · intro hn
      by_contra hlen
      obtain ⟨s, hs⟩ := check_posture_isSome lms (by omega)
      rw [hs] at hn
      exact Option.noConfusion hn
    · exact check_posture_isNone lms

/-- One-step unfolding of `runFrames` on a cons cell. -/
lemma runFrames_cons (f : ℚ × FrameInput) (rest : List (ℚ × FrameInput))
    (st : PostureGuardian) :
    runFrames (f :: rest) st =
      ((runFrames rest (process_frame f.1 f.2 st).1).1,
        (if (process_frame f.1 f.2 st).2.alert then 1 else 0) +
          (runFrames rest (process_frame f.1 f.2 st).1).2) := rfl

/-- C1 (amended): starting from a zero counter with no active cooldown,
    feeding 5 consecutive Bad classifications fires no alert, the 6th
    consecutive Bad classification fires exactly one alert, and a single
    Good classification amid a run of Bad classifications resets the
    counter to 0 so that 6 new consecutive Bad classifications are again
    required to fire.  (The source threshold is
    `bad_posture_counter > 5`, so the alert fires on the 6th consecutive
    bad frame, not the 7th.) -/
theorem c1_debounce_threshold (now : ℚ) (st : PostureGuardian) (sig base : Sig)
    (hc : st.calibrating = false) (hm : st.monitoring = true)
    (hg : st.good_posture = some base)
    (hb : isBad sig base st.sensitivity = true)
    (hcnt : st.bad_posture_counter = 0)
    (hcool : ¬ now - st.last_alert_time < (st.alert_duration : ℚ)) :
    (runFrames (List.replicate 5 (now, FrameInput.detected (some sig))) st).2 = 0 ∧
    (runFrames (List.replicate 6 (now, FrameInput.detected (some sig))) st).2 = 1 ∧
    (∀ g : Sig, isBad g base st.sensitivity = false →
      (runFrames (List.replicate 3 (now, FrameInput.detected (some sig)) ++
        (now, FrameInput.detected (some g)) ::
        List.replicate 5 (now, FrameInput.detected (some sig))) st).2 = 0 ∧
      (runFrames (List.replicate 3 (now, FrameInput.detected (some sig)) ++
        (now, FrameInput.detected (some g)) ::
        List.replicate 6 (now, FrameInput.detected (some sig))) st).2 = 1) := by
  refine ⟨?_, ?_, ?_⟩
  · rw [run_bad_le5 now sig base 5 st hc hm hg hb (by omega)]
  · rw [run_bad_six now sig base st hc hm hg hb hcnt hcool]
  · intro g hgood
    have h3 := run_bad_le5 now sig base 3 st hc hm hg hb (by omega)
    constructor
    · rw [runFrames_append, h3]
      rw [runFrames_cons]
      rw [process_frame_good now {st with bad_posture_counter := st.bad_posture_counter + 3}
            g base (by simpa using hc) (by simpa using hm) (by simpa using hg)
            (by simpa using hgood)]
      dsimp only
      rw [run_bad_le5 now sig base 5 _ (by simpa using hc) (by simpa using hm)
            (by simpa using hg) (by simpa using hb) (by simp)]
      simp
    · rw [runFrames_append, h3]
      rw [runFrames_cons]
      rw [process_frame_good now {st with bad_posture_counter := st.bad_posture_counter + 3}
            g base (by simpa using hc) (by simpa using hm) (by simpa using hg)
            (by simpa using hgood)]
      dsimp only
      rw [run_bad_six now sig base _ (by simpa using hc) (by simpa using hm)
            (by simpa using hg) (by simpa using hb) (by simp)
            (by simpa using hcool)]
      simp

/-- Witness for C1 at a concrete monitoring state. -/
theorem c1_debounce_threshold_witness :
    (runFrames (List.replicate 5 (100, FrameInput.detected (some badSig0))) stMon0).2 = 0 ∧
    (runFrames (List.replicate 6 (100, FrameInput.detected (some badSig0))) stMon0).2 = 1 ∧
    (runFrames (List.replicate 3 (100, FrameInput.detected (some badSig0)) ++
      (100, FrameInput.detected (some base0)) ::
      List.replicate 6 (100, FrameInput.detected (some badSig0))) stMon0).2 = 1 := by
  have h := c1_debounce_threshold 100 stMon0 badSig0 base0 rfl rfl rfl
    (by simp [isBad, badSig0, base0, stMon0]; norm_num) rfl
    (by norm_num [stMon0])
  exact ⟨h.1, h.2.1, (h.2.2 base0 (by simp [isBad, base0, stMon0])).2⟩

/-- C1 counterexample: from a zero counter with no active cooldown, 6
    consecutive Bad classifications already fire an alert, contradicting
    the claim that 6 consecutive Bad frames never fire and only the 7th
    does. -/
theorem c1_counterexample :
    (runFrames (List.replicate 6 (100, FrameInput.detected (some badSig0))) stMon0).2 = 1 := by
  rw [run_bad_six 100 badSig0 base0 stMon0 rfl rfl rfl
        (by simp [isBad, badSig0, base0, stMon0]; norm_num) rfl
        (by norm_num [stMon0])]

/-- The bad-posture condition as a proposition, spelled out. -/
lemma isBad_iff (sig base : Sig) (sens : ℤ) :
    isBad sig base sens = true ↔
      (|sig.shoulder_slope - base.shoulder_slope| > (sens : ℚ) ∨
       |sig.neck_angle - base.neck_angle| > (sens : ℚ) ∨
       (sig.head_forward = true ∧ base.head_forward = false)) := by
  simp [isBad, Bool.or_eq_true, decide_eq_true_eq, Bool.and_eq_true,
    Bool.not_eq_true']
  tauto

/-- A signature compared against itself is never classified bad when
    the sensitivity is nonnegative. -/
lemma isBad_self (base : Sig) (sens : ℤ) (hs : 0 ≤ sens) :
    isBad base base sens = false := by
  rw [Bool.eq_false_iff]
  intro h
  rcases (isBad_iff base base sens).mp h with h1 | h1 | h1
  · rw [sub_self, abs_zero] at h1
    exact absurd h1 (by exact_mod_cast not_lt.mpr hs)
  · rw [sub_self, abs_zero] at h1
    exact absurd h1 (by exact_mod_cast not_lt.mpr hs)
  · rw [h1.1] at h1
    exact Bool.noConfusion h1.2

/-- C2: while monitoring with a stored baseline, a frame is classified
    Bad — observable as the counter incrementing — exactly when the
    shoulder difference exceeds the sensitivity, or the neck difference
    exceeds the sensitivity, or `head_forward` is newly true; otherwise
    it is classified Good (counter reset to 0).  In particular a frame
    whose signature equals the baseline is classified Good. -/
theorem c2_evaluator_rule (now : ℚ) (st : PostureGuardian) (sig base : Sig)
    (hc : st.calibrating = false) (hm : st.monitoring = true)
    (hg : st.good_posture = some base) (hs : 0 ≤ st.sensitivity) :
    ((process_frame now (.detected (some sig)) st).1.bad_posture_counter
        = st.bad_posture_counter + 1 ↔
      (|sig.shoulder_slope - base.shoulder_slope| > (st.sensitivity : ℚ) ∨
       |sig.neck_angle - base.neck_angle| > (st.sensitivity : ℚ) ∨
       (sig.head_forward = true ∧ base.head_forward = false))) ∧
    ((process_frame now (.detected (some sig)) st).1.bad_posture_counter = 0 ↔
      ¬(|sig.shoulder_slope - base.shoulder_slope| > (st.sensitivity : ℚ) ∨
        |sig.neck_angle - base.neck_angle| > (st.sensitivity : ℚ) ∨
        (sig.head_forward = true ∧ base.head_forward = false))) ∧
    (process_frame now (.detected (some base)) st).1.bad_posture_counter = 0 := by
  have hself : (process_frame now (.detected (some base)) st).1.bad_posture_counter = 0 := by
    rw [process_frame_good now st base base hc hm hg (isBad_self base st.sensitivity hs)]
  by_cases hb : isBad sig base st.sensitivity = true
  · have hbad := (isBad_iff sig base st.sensitivity).mp hb
    have hcnt : (process_frame now (.detected (some sig)) st).1.bad_posture_counter
        = st.bad_posture_counter + 1 := by
      rw [process_frame_bad now st sig base hc hm hg hb]
      split_ifs <;> rfl
    refine ⟨⟨fun _ => hbad, fun _ => hcnt⟩, ⟨fun h0 => ?_, fun hn => absurd hbad hn⟩, hself⟩
    rw [hcnt] at h0
    exact absurd h0 (by omega)
  · have hbf : isBad sig base st.sensitivity = false := by
      simpa using hb
    have hnbad : ¬(|sig.shoulder_slope - base.shoulder_slope| > (st.sensitivity : ℚ) ∨
        |sig.neck_angle - base.neck_angle| > (st.sensitivity : ℚ) ∨
        (sig.head_forward = true ∧ base.head_forward = false)) := by
      rw [← isBad_iff, hbf]
      exact Bool.noConfusion
    have hcnt0 : (process_frame now (.detected (some sig)) st).1.bad_posture_counter = 0 := by
      rw [process_frame_good now st sig base hc hm hg hbf]
    refine ⟨⟨fun h1 => absurd ?_ hnbad, fun hform => absurd hform hnbad⟩,
      ⟨fun _ => hnbad, fun _ => hcnt0⟩, hself⟩
    rw [hcnt0] at h1
    exact absurd h1.symm (by omega)

/-- Witness for C2 at a concrete monitoring state: the deviating
    signature increments the counter, the identical signature resets it. -/
theorem c2_evaluator_rule_witness :
    (process_frame 100 (.detected (some badSig0)) stMon0).1.bad_posture_counter
      = stMon0.bad_posture_counter + 1 ∧
    (process_frame 100 (.detected (some base0)) stMon0).1.bad_posture_counter = 0 := by
  have h := c2_evaluator_rule 100 stMon0 badSig0 base0 rfl rfl rfl (by decide)
  refine ⟨h.1.mpr ?_, h.2.2⟩
  left
  norm_num [badSig0, base0, stMon0]

/-- C3: after an alert fires (stamping `last_alert_time`), no second
    alert fires strictly within `alert_duration` even under continuous
    Bad classifications (and the stamp never moves meanwhile); a Bad
    frame arriving when the elapsed time exactly equals the cooldown
    boundary fires (when the counter qualifies); and firing never resets
    the counter — it keeps incrementing. -/
theorem c3_cooldown_gate (now1 now2 : ℚ) (st : PostureGuardian) (sig base : Sig)
    (hc : st.calibrating = false) (hm : st.monitoring = true)
    (hg : st.good_posture = some base)
    (hb : isBad sig base st.sensitivity = true)
    (h1 : now1 - st.last_alert_time < (st.alert_duration : ℚ))
    (h2 : now2 - st.last_alert_time = (st.alert_duration : ℚ))
    (h5 : 5 ≤ st.bad_posture_counter) :
    ((process_frame now1 (.detected (some sig)) st).2.alert = false ∧
     (process_frame now1 (.detected (some sig)) st).1.bad_posture_counter
       = st.bad_posture_counter + 1 ∧
     (process_frame now1 (.detected (some sig)) st).1.last_alert_time
       = st.last_alert_time) ∧
    ((process_frame now2 (.detected (some sig)) st).2.alert = true ∧
     (process_frame now2 (.detected (some sig)) st).1.bad_posture_counter
       = st.bad_posture_counter + 1 ∧
     (process_frame now2 (.detected (some sig)) st).1.last_alert_time = now2) ∧
    (∀ ts : List ℚ,
      (∀ t ∈ ts, t - st.last_alert_time < (st.alert_duration : ℚ)) →
      (runFrames (ts.map fun t => (t, FrameInput.detected (some sig))) st).2 = 0 ∧
      (runFrames (ts.map fun t => (t, FrameInput.detected (some sig))) st).1.last_alert_time
        = st.last_alert_time) := by
  refine ⟨?_, ?_, fun ts hts => run_bad_cooldown sig base ts st hc hm hg hb hts⟩
  · rw [process_frame_bad now1 st sig base hc hm hg hb]
    by_cases hgt : st.bad_posture_counter + 1 > 5
    · rw [if_pos hgt, if_pos h1]
      exact ⟨rfl, rfl, rfl⟩
    · rw [if_neg hgt]
      exact ⟨rfl, rfl, rfl⟩
  · rw [process_frame_bad now2 st sig base hc hm hg hb]
    rw [if_pos (by omega)]
    rw [if_neg (by rw [h2]; exact lt_irrefl _)]
    exact ⟨rfl, rfl, rfl⟩

/-- Witness for C3 at a concrete in-cooldown state. -/
theorem c3_cooldown_gate_witness :
    (process_frame 100 (.detected (some badSig0)) stCool5).2.alert = false ∧
    (process_frame 102 (.detected (some badSig0)) stCool5).2.alert = true ∧
    (process_frame 102 (.detected (some badSig0)) stCool5).1.bad_posture_counter = 6 ∧
    (runFrames ([100, 101].map fun t => (t, FrameInput.detected (some badSig0))) stCool5).2
      = 0 := by
  have h := c3_cooldown_gate 100 102 stCool5 badSig0 base0 rfl rfl rfl
    (by simp [isBad, badSig0, base0, stCool5, stMon0]; norm_num)
    (by norm_num [stCool5, stMon0]) (by norm_num [stCool5, stMon0]) (by decide)
  refine ⟨h.1.1, h.2.1.1, by rw [h.2.1.2.1]; rfl, ?_⟩
  refine (h.2.2 [100, 101] ?_).1
  intro t ht
  simp at ht
  rcases ht with rfl | rfl <;> norm_num [stCool5, stMon0]

/-- C4: starting a calibration clears any previously stored baseline
    (and raises the calibrating flag); during the calibration window the
    first valid signature is adopted as the baseline, and every later
    valid frame leaves the stored baseline unchanged (first-wins, no
    averaging). -/
theorem c4_calibration_first_wins :
    (∀ st : PostureGuardian, (calibrate_posture st).1.good_posture = none ∧
        (calibrate_posture st).1.calibrating = true) ∧
    (∀ (now : ℚ) (sig : Sig) (st : PostureGuardian),
        st.calibrating = true → st.good_posture = none →
        (process_frame now (.detected (some sig)) st).1.good_posture = some sig) ∧
    (∀ (now : ℚ) (sig b : Sig) (st : PostureGuardian),
        st.calibrating = true → st.good_posture = some b →
        (process_frame now (.detected (some sig)) st).1.good_posture = some b) := by
  refine ⟨fun st => ⟨rfl, rfl⟩, ?_, ?_⟩
  · intro now sig st hc hg
    rw [process_frame_calib now st sig hc hg]
  · intro now sig b st hc hg
    rw [process_frame_baseline_stable now _ st (by simp [hg])]
    exact hg

/-- Witness for C4 at concrete calibrating states. -/
theorem c4_calibration_first_wins_witness :
    (calibrate_posture stMon0).1.good_posture = none ∧
    (process_frame 0 (.detected (some base0)) stCalib0).1.good_posture = some base0 ∧
    (process_frame 0 (.detected (some badSig0)) stCalibB0).1.good_posture = some base0 := by
  refine ⟨(c4_calibration_first_wins.1 stMon0).1, ?_, ?_⟩
  · exact c4_calibration_first_wins.2.1 0 base0 stCalib0 rfl rfl
  · exact c4_calibration_first_wins.2.2 0 badSig0 base0 stCalibB0 rfl rfl

/-- C5 (amended): when the calibration window elapses with no valid
    signature captured, the core clears the calibrating flag — returning
    to Idle when the calibration was started from Idle — but reports
    nothing (no failure status is emitted); when a baseline was
    captured, it raises the monitoring flag and reports success. -/
theorem c5_window_elapsed (st : PostureGuardian) :
    (st.good_posture = none →
      finish_calibration st = ({st with calibrating := false}, none)) ∧
    (∀ b : Sig, st.good_posture = some b →
      finish_calibration st =
        ({st with calibrating := false, monitoring := true}, some .calibrated)) := by
  constructor
  · intro hg
    simp only [finish_calibration]
    simp [hg]
  · intro b hg
    simp only [finish_calibration]
    simp [hg]

/-- Witness for C5 at concrete end-of-window states. -/
theorem c5_window_elapsed_witness :
    finish_calibration stCalib0 = ({stCalib0 with calibrating := false}, none) ∧
    finish_calibration stCalibB0 =
      ({stCalibB0 with calibrating := false, monitoring := true}, some .calibrated) := by
  exact ⟨(c5_window_elapsed stCalib0).1 rfl,
    (c5_window_elapsed stCalibB0).2 base0 rfl⟩

/-- C5 counterexample: at a calibrating state with no captured baseline,
    the elapsed window emits no status at all — the claimed calibration
    failure report does not happen (the state itself does return to
    Idle). -/
theorem c5_counterexample :
    (finish_calibration stCalib0).2 = none ∧
    (finish_calibration stCalib0).1.calibrating = false ∧
    (finish_calibration stCalib0).1.monitoring = false :=
  ⟨rfl, rfl, rfl⟩

/-- C6 (amended): the initial state is Idle; `process_frame` and
    `finish_calibration` preserve the mutual exclusion of the
    Calibrating and Monitoring flags; but `calibrate_posture` preserves
    it exactly when the state was not Monitoring — starting a
    recalibration while Monitoring leaves both flags raised at once. -/
theorem c6_state_exclusivity :
    (initState.calibrating = false ∧ initState.monitoring = false) ∧
    (∀ (now : ℚ) (inp : FrameInput) (st : PostureGuardian),
      ¬(st.calibrating = true ∧ st.monitoring = true) →
      ¬((process_frame now inp st).1.calibrating = true ∧
        (process_frame now inp st).1.monitoring = true)) ∧
    (∀ st : PostureGuardian,
      ¬((finish_calibration st).1.calibrating = true ∧
        (finish_calibration st).1.monitoring = true)) ∧
    (∀ st : PostureGuardian,
      (¬((calibrate_posture st).1.calibrating = true ∧
         (calibrate_posture st).1.monitoring = true)) ↔ st.monitoring = false) := by
  refine ⟨⟨rfl, rfl⟩, ?_, ?_, ?_⟩
  · intro now inp st h
    have hf := process_frame_fields now inp st
    rw [hf.1, hf.2.1]
    exact h
  · intro st
    rcases hg : st.good_posture with _ | b <;> simp [finish_calibration, hg]
  · intro st
    constructor
    · intro h
      simpa [calibrate_posture] using h
    · intro h
      simp [calibrate_posture, h]

/-- Witness for C6 at the initial state. -/
theorem c6_state_exclusivity_witness :
    ¬((process_frame 0 FrameInput.noDetection initState).1.calibrating = true ∧
      (process_frame 0 FrameInput.noDetection initState).1.monitoring = true) :=
  c6_state_exclusivity.2.1 0 FrameInput.noDetection initState (by decide)

/-- C6 counterexample: starting a recalibration from the Monitoring
    state yields a reachable state in which the Calibrating and
    Monitoring flags are both raised, so Calibrating and Monitoring are
    not mutually exclusive. -/
theorem c6_counterexample :
    recalibState.calibrating = true ∧ recalibState.monitoring = true :=
  ⟨rfl, rfl⟩

/-- C7 (amended): a frame whose signature computation failed leaves the
    whole state (counter, baseline, flags, timestamps) untouched and
    fires no alert, but emits no status update at all; the "no person
    detected" status is emitted exactly on frames with no detected
    landmarks, which also leave the state untouched. -/
theorem c7_unknown_frames (now : ℚ) (st : PostureGuardian) :
    process_frame now (.detected none) st = (st, ⟨none, false⟩) ∧
    process_frame now .noDetection st = (st, ⟨some .noPerson, false⟩) :=
  ⟨rfl, rfl⟩

/-- C7 counterexample: at a monitoring state, a frame with landmarks
    whose signature computation failed emits no status — not the claimed
    "no person detected". -/
theorem c7_counterexample :
    (process_frame 100 (.detected none) stMon0).2.status = none ∧
    (process_frame 100 (.detected none) stMon0).2.status ≠ some Status.noPerson :=
  ⟨rfl, fun h => Option.noConfusion h⟩

/-- C9 (amended): the configuration setters perform no validation at
    all: they store `int(value)` unconditionally, so every integer —
    in range or not — can end up silently stored as the active setting
    (range limits exist only as GUI slider bounds). -/
theorem c9_config_stored_unvalidated (t : ℤ) (st : PostureGuardian) :
    (update_sensitivity (t : ℚ) st).sensitivity = t ∧
    (update_duration (t : ℚ) st).alert_duration = t ∧
    (∀ v : ℚ, update_sensitivity v st = {st with sensitivity := pyInt v} ∧
      update_duration v st = {st with alert_duration := pyInt v}) := by
  have hp : pyInt (t : ℚ) = t := by
    unfold pyInt
    split_ifs with h
    · rw [show -(t : ℚ) = ((-t : ℤ) : ℚ) by push_cast; ring, Int.floor_intCast]
      ring
    · exact Int.floor_intCast t
  exact ⟨hp, hp, fun v => ⟨rfl, rfl⟩⟩

/-- C9 counterexample: writing 25 through `update_sensitivity` (and
    through `update_duration`) stores 25 — out of the documented ranges
    5..20 and 1..10 — with no rejection and no clamping. -/
theorem c9_counterexample :
    (update_sensitivity 25 initState).sensitivity = 25 ∧
    ¬(5 ≤ (update_sensitivity 25 initState).sensitivity ∧
      (update_sensitivity 25 initState).sensitivity ≤ 20) ∧
    (update_duration 25 initState).alert_duration = 25 ∧
    ¬(1 ≤ (update_duration 25 initState).alert_duration ∧
      (update_duration 25 initState).alert_duration ≤ 10) := by
  decide
